import Mathlib

/-!
Shallow embedding of the request-scoped structured logging facility
(`utils/logger_with_elastic.py`, `middleware/logging_middleware.py`) and
proofs of its specified properties.

Python values appearing in log records are modelled by `PyValue`; Python
dictionaries by ordered association lists (`Dict`) with insertion-order
update semantics mirroring CPython dicts.
-/

set_option autoImplicit false

namespace FastapiLogging

/-- A Python runtime value as it can appear in a log record's `extra`
mapping.  `pyobj s` stands for an arbitrary Python object that is not
JSON-serializable, carrying its `str()` representation `s`. -/
inductive PyValue where
  | null
  | bool (b : Bool)
  | int (n : Int)
  | str (s : String)
  | obj (fields : List (String × PyValue))
  | pyobj (reprStr : String)
deriving Repr

/-- A Python dict with string keys, as an ordered association list. -/
abbrev Dict := List (String × PyValue)

/-- `d[k]` lookup: first (and in a well-formed dict, only) binding of `k`. -/
def dictGet {α : Type} (d : List (String × α)) (k : String) : Option α :=
  (d.find? (fun p => p.1 == k)).map Prod.snd

/-- `d[k] = v`: CPython semantics — if `k` is present its value is updated
in place (position preserved), otherwise the binding is appended. -/
def dictSet {α : Type} : List (String × α) → String → α → List (String × α)
  | [], k, v => [(k, v)]
  | p :: rest, k, v => if p.1 == k then (k, v) :: rest else p :: dictSet rest k v

/-- `d.update(e)`: set each binding of `e` into `d`, left to right. -/
def dictUpdate {α : Type} (d e : List (String × α)) : List (String × α) :=
  e.foldl (fun acc p => dictSet acc p.1 p.2) d

/-- The keys of a dict, in order. -/
def dictKeys {α : Type} (d : List (String × α)) : List String :=
  d.map Prod.fst

/-- Whether a value is the Python `None`. -/
def PyValue.isNull : PyValue → Bool
  | .null => true
  | _ => false

end FastapiLogging

namespace FastapiLogging

mutual

/-- `json.dumps` on a value (no `default=` argument): succeeds exactly on
JSON-serializable values, raises (`none`) as soon as it meets a
non-serializable object. -/
def PyValue.dumps : PyValue → Option String
  | .null => some "null"
  | .bool b => some (if b then "true" else "false")
  | .int n => some (toString n)
  | .str s => some ("\"" ++ s ++ "\"")
  | .obj fields => (dumpsFields fields).map (fun body => "\x7b" ++ body ++ "\x7d")
  | .pyobj _ => none

/-- `json.dumps` on the field list of an object, comma-separated. -/
def dumpsFields : List (String × PyValue) → Option String
  | [] => some ""
  | (k, v) :: rest =>
    match v.dumps, dumpsFields rest with
    | some sv, some srest =>
      some ("\"" ++ k ++ "\":" ++ sv ++ (if rest.isEmpty then "" else ",") ++ srest)
    | _, _ => none

end

mutual

/-- Whether a value is JSON-serializable (contains no opaque Python object). -/
def PyValue.serializable : PyValue → Bool
  | .null => true
  | .bool _ => true
  | .int _ => true
  | .str _ => true
  | .obj fields => serializableFields fields
  | .pyobj _ => false

/-- Whether every value of a field list is JSON-serializable. -/
def serializableFields : List (String × PyValue) → Bool
  | [] => true
  | (_, v) :: rest => v.serializable && serializableFields rest

end

/-! ### `RequestContext` (dataclass) -/

/-- The `RequestContext` dataclass: per-request contextual metadata. -/
structure RequestContext where
  timestamp : Option String
  request_id : String
  user_id : String
  service : String
  environment : String
  extra : Option Dict
deriving Repr

/-- Constructing a `RequestContext`: each argument is the optionally
supplied keyword argument; an absent argument takes the dataclass field
default (`None`, `'-'`, `'-'`, `'-'`, `'development'`, `None`); then
`__post_init__` replaces a `None` timestamp with the current UTC time
`now`. -/
def mkRequestContext (now : String) (timestamp : Option String)
    (request_id : Option String) (user_id : Option String)
    (service : Option String) (environment : Option String)
    (extra : Option Dict) : RequestContext :=
  let c : RequestContext :=
    { timestamp := timestamp
      request_id := request_id.getD "-"
      user_id := user_id.getD "-"
      service := service.getD "-"
      environment := environment.getD "development"
      extra := extra }
  if c.timestamp.isNone then { c with timestamp := some now } else c

/-- `dataclasses.asdict(self).items()` in field order, with Python `None`
rendered as `PyValue.null`. -/
def RequestContext.fieldsList (c : RequestContext) : Dict :=
  [("timestamp", match c.timestamp with | some s => .str s | none => .null),
   ("request_id", .str c.request_id),
   ("user_id", .str c.user_id),
   ("service", .str c.service),
   ("environment", .str c.environment),
   ("extra", match c.extra with | some d => .obj d | none => .null)]

/-- `RequestContext.as_dict`: the field dict with `None`-valued fields
dropped (`if v is not None`). -/
def RequestContext.as_dict (c : RequestContext) : Dict :=
  c.fieldsList.filter (fun p => !p.2.isNull)

/-! ### The `ContextVar` carrier -/

/-- A logical unit of work (an asyncio task serving one request). -/
abbrev TaskId := Nat

/-- The storage of a `ContextVar`: each task's own (optional) value. -/
def CVarStore := TaskId → Option RequestContext

/-- No task has set the variable yet. -/
def emptyStore : CVarStore := fun _ => none

/-- `ContextVar.set` performed by task `t`: only task `t`'s slot changes. -/
def cvarSet (s : CVarStore) (t : TaskId) (c : RequestContext) : CVarStore :=
  fun t2 => if t2 = t then some c else s t2

/-- `ContextVar.get` performed by task `t`: the task's own value if it has
set one, otherwise the variable's declared default. -/
def cvarGet (s : CVarStore) (dflt : Option RequestContext) (t : TaskId) :
    Option RequestContext :=
  match s t with
  | some c => some c
  | none => dflt

/-- Replay of an interleaved trace of `set` operations (task, context)
from the initial empty store. -/
def runSets (tr : List (TaskId × RequestContext)) : CVarStore :=
  tr.foldl (fun s p => cvarSet s p.1 p.2) emptyStore

/-- The default of `FastAPILogger._context_var`: `RequestContext()`
constructed at class-definition time `now0`. -/
def defaultRequestContext (now0 : String) : RequestContext :=
  mkRequestContext now0 none none none none none none

/-! ### `FastAPILogger` configuration and context handling -/

/-- The construction-time configuration of a `FastAPILogger`. -/
structure LoggerConfig where
  name : String
  log_dir : String
  service_name : String
  environment : String

/-- The keyword arguments accepted by `set_context` (forwarded verbatim to
the `RequestContext` constructor; `service` and `environment` are already
passed positionally, so supplying them again would be a `TypeError`). -/
structure ContextKwargs where
  timestamp : Option String
  request_id : Option String
  user_id : Option String
  extra : Option Dict

/-- The `RequestContext(service=self.service_name,
environment=self.environment, **kwargs)` built by `set_context`. -/
def buildContext (cfg : LoggerConfig) (now : String) (kw : ContextKwargs) :
    RequestContext :=
  mkRequestContext now kw.timestamp kw.request_id kw.user_id
    (some cfg.service_name) (some cfg.environment) kw.extra

/-- `FastAPILogger.set_context` executed by task `t`: build a fresh
context and store it in the context variable. -/
def set_context (cfg : LoggerConfig) (now : String) (kw : ContextKwargs)
    (s : CVarStore) (t : TaskId) : CVarStore :=
  cvarSet s t (buildContext cfg now kw)

/-- `FastAPILogger._get_log_args`, restricted to the `extra` it returns:
`extra = kwargs.pop('extra', {})`, then `extra.update(context.as_dict())`
on the ambient context. -/
def getLogArgs (callExtra : Dict) (context : RequestContext) : Dict :=
  dictUpdate callExtra context.as_dict

/-! ### Severity levels and sinks -/

/-- `logging.DEBUG`. -/
def DEBUG : Nat := 10

/-- `logging.INFO`. -/
def INFO : Nat := 20

/-- `logging.WARNING`. -/
def WARNING : Nat := 30

/-- `logging.ERROR`. -/
def ERROR : Nat := 40

/-- The kind of sink a handler writes to. -/
inductive SinkKind where
  | file
  | json
  | console
  | elastic
deriving Repr, DecidableEq

/-- An installed `logging.Handler`: its sink kind, its minimum severity
(`setLevel`; `0` = NOTSET, the `logging.Handler` default), and its target
file when it writes to one. -/
structure Handler where
  kind : SinkKind
  level : Nat
  filename : Option String
deriving Repr, DecidableEq

/-- The mutable state of a named `logging.Logger`. -/
structure LoggerState where
  level : Nat
  handlers : List Handler
deriving Repr, DecidableEq

/-- The process-wide `logging` registry of named loggers. -/
abbrev Registry := List (String × LoggerState)

/-- `logging.getLogger(name)`: the registered logger, or a fresh one
(level NOTSET, no handlers) when the name is new. -/
def getLogger (reg : Registry) (name : String) : LoggerState :=
  (dictGet reg name).getD { level := 0, handlers := [] }

/-- Store a named logger back into the registry. -/
def setLoggerState (reg : Registry) (name : String) (st : LoggerState) :
    Registry :=
  dictSet reg name st

/-- The `TimedRotatingFileHandler` for `<log_dir>/app.log` (line format),
minimum severity INFO. -/
def fileHandler (log_dir : String) : Handler :=
  { kind := .file, level := INFO, filename := some (log_dir ++ "/app.log") }

/-- The `TimedRotatingFileHandler` for `<log_dir>/app.json.log`
(`JsonFormatter`), minimum severity INFO. -/
def jsonHandler (log_dir : String) : Handler :=
  { kind := .json, level := INFO, filename := some (log_dir ++ "/app.json.log") }

/-- The `StreamHandler(sys.stdout)` console handler, minimum severity
DEBUG. -/
def consoleHandler : Handler :=
  { kind := .console, level := DEBUG, filename := none }

/-- `FastAPILogger._configure_logger`: fetch the named logger, set its
level to DEBUG, and — only if it has no handlers yet — add the file, JSON
and console handlers. -/
def configureLogger (reg : Registry) (cfg : LoggerConfig) : Registry :=
  let st := getLogger reg cfg.name
  let st := { st with level := DEBUG }
  let st :=
    if st.handlers.isEmpty then
      { st with handlers := st.handlers ++
          [fileHandler cfg.log_dir, jsonHandler cfg.log_dir, consoleHandler] }
    else st
  setLoggerState reg cfg.name st

/-- The `ElasticsearchHandler` added by `_setup_elasticsearch`
(`logging.Handler` default level NOTSET). -/
def elasticHandler : Handler :=
  { kind := .elastic, level := 0, filename := none }

/-- `FastAPILogger._setup_elasticsearch` when `elastic_config` is given:
append the Elasticsearch handler to the logger's handlers. -/
def setupElasticsearch (st : LoggerState) : LoggerState :=
  { st with handlers := st.handlers ++ [elasticHandler] }

/-- `Logger.callHandlers` together with the level gate of
`Logger.debug/info/error`: a record at level `recLevel` reaches exactly
the handlers whose minimum severity it meets, provided the logger itself
is enabled for that level. -/
def deliveredSinks (st : LoggerState) (recLevel : Nat) : List Handler :=
  if st.level ≤ recLevel then st.handlers.filter (fun h => h.level ≤ recLevel)
  else []

/-! ### The Elasticsearch sink -/

/-- The outcome of `es_client.index` for one document: success, or one of
the failure modes raised as an exception with message `msg`. -/
inductive ESOutcome where
  | ok
  | connError (msg : String)
  | authError (msg : String)
  | serError (msg : String)
deriving Repr, DecidableEq

/-- `str(e)` of the exception raised by the remote store, if any. -/
def ESOutcome.errMsg : ESOutcome → Option String
  | .ok => none
  | .connError m => some m
  | .authError m => some m
  | .serError m => some m

/-- What one handler's `emit` did with a record. -/
structure EmitResult where
  delivered : Bool
  stderrLines : List String
  raised : Option String
deriving Repr, DecidableEq

/-- The body of `ElasticsearchHandler.emit`: index the document; on any
exception, write the error to `sys.stderr` and drop the record — the
`except` clause catches every `Exception`, so nothing is re-raised. -/
def elasticEmit (es : ESOutcome) : EmitResult :=
  match es.errMsg with
  | none => { delivered := true, stderrLines := [], raised := none }
  | some m =>
    { delivered := false
      stderrLines := ["Error sending log to Elasticsearch: " ++ m ++ "\n"]
      raised := none }

/-- One handler handling one record: the local file/JSON/console handlers
write synchronously and succeed; the Elasticsearch handler behaves as
`elasticEmit` under the remote outcome `es`. -/
def handlerEmit (h : Handler) (es : ESOutcome) : EmitResult :=
  match h.kind with
  | .elastic => elasticEmit es
  | _ => { delivered := true, stderrLines := [], raised := none }

/-- A full facade call (`FastAPILogger.log` → `Logger.callHandlers`): the
per-sink results for every handler the record is delivered to. -/
def logCall (st : LoggerState) (recLevel : Nat) (es : ESOutcome) :
    List (SinkKind × EmitResult) :=
  (deliveredSinks st recLevel).map (fun h => (h.kind, handlerEmit h es))

/-! ### `JsonFormatter` -/

/-- The fields of a `logging.LogRecord` that `JsonFormatter` reads:
`levelname`, `name`, `getMessage()`, the `extra` attribute when present,
and the rendered exception text when `exc_info` was captured. -/
structure PyLogRecord where
  levelname : String
  name : String
  message : String
  extra : Option Dict
  exc_text : Option String
deriving Repr

/-- The `log_data` dict built by `JsonFormatter.format`: the reserved
keys, updated with `record.extra` when present, plus `exception` when an
exception was captured. -/
def JsonFormatter.logData (now : String) (r : PyLogRecord) : Dict :=
  let log_data : Dict :=
    [("timestamp", .str now), ("level", .str r.levelname),
     ("message", .str r.message), ("logger", .str r.name)]
  let log_data :=
    match r.extra with
    | some e => dictUpdate log_data e
    | none => log_data
  match r.exc_text with
  | some exc => dictSet log_data "exception" (.str exc)
  | none => log_data

/-- `JsonFormatter.format`: `json.dumps(log_data)` — `none` models the
`TypeError` raised on a non-serializable value. -/
def JsonFormatter.format (now : String) (r : PyLogRecord) : Option String :=
  PyValue.dumps (.obj (JsonFormatter.logData now r))

/-- The record attribute named `extra` after `Logger.makeRecord` spreads
the merged mapping `m` (the `extra=` argument) into individual record
attributes: it exists only when `m` itself has an `'extra'` key, and then
holds just that nested value — never the merged mapping.  In every run of
this program that value is the context's nested extra dict; were it not a
dict, `log_data.update` in `format` would raise, a case outside this
model's use. -/
def recordExtraDict (m : Dict) : Option Dict :=
  match dictGet m "extra" with
  | some (.obj d) => some d
  | _ => none

/-- The `LogRecord` a facade call hands to the formatters:
`Logger.makeRecord` receives the merged mapping built by `_get_log_args`
and spreads it into record attributes, so the record's `extra` attribute
is the merged mapping's own `'extra'` entry, not the merged mapping. -/
def facadeRecord (levelname name message : String) (callExtra : Dict)
    (ctx : RequestContext) (exc_text : Option String) : PyLogRecord :=
  { levelname := levelname, name := name, message := message
    extra := recordExtraDict (getLogArgs callExtra ctx)
    exc_text := exc_text }

/-! ### The logging middleware -/

/-- The part of the response the middleware reads. -/
structure Response where
  status_code : Nat
deriving Repr, DecidableEq

/-- What kind of record a middleware log call produced. -/
inductive EventTag where
  | started
  | completed
  | failed
deriving Repr, DecidableEq

/-- One log event produced by the middleware. -/
structure LogEvent where
  level : Nat
  tag : EventTag
  exc_info : Bool
deriving Repr, DecidableEq

/-- A terminal event: request completed or request failed. -/
def LogEvent.isTerminal (ev : LogEvent) : Bool :=
  match ev.tag with
  | .completed => true
  | .failed => true
  | .started => false

/-- `logging_middleware` run by task `t`: set the entry context and log
"Request started"; then either `call_next` returns a response — update
the context with the status code, log INFO "Request completed" and return
the response — or it raises — log ERROR "Request failed" with
`exc_info=True` and re-raise.  Returns the emitted events, the
middleware's own outcome, and the final context store. -/
def loggingMiddleware (ε : Type) (cfg : LoggerConfig) (now : String)
    (t : TaskId) (requestId method path : String)
    (callNext : Except ε Response) (s : CVarStore) :
    List LogEvent × Except ε Response × CVarStore :=
  let s1 := set_context cfg now
    { timestamp := none, request_id := some requestId, user_id := none
      extra := some [("path", .str path), ("method", .str method)] } s t
  let started : LogEvent := { level := INFO, tag := .started, exc_info := false }
  match callNext with
  | .ok resp =>
    let s2 := set_context cfg now
      { timestamp := none, request_id := some requestId, user_id := none
        extra := some [("path", .str path), ("method", .str method),
                       ("status_code", .int resp.status_code)] } s1 t
    ([started, { level := INFO, tag := .completed, exc_info := false }],
     .ok resp, s2)
  | .error e =>
    ([started, { level := ERROR, tag := .failed, exc_info := true }],
     .error e, s1)

mutual

/-- `json.dumps` succeeds exactly on serializable values. -/
theorem dumps_isSome_iff_serializable (v : PyValue) :
    v.dumps.isSome = v.serializable := by
  cases v with
  | null => simp [PyValue.dumps, PyValue.serializable]
  | bool b => simp [PyValue.dumps, PyValue.serializable]
  | int n => simp [PyValue.dumps, PyValue.serializable]
  | str s => simp [PyValue.dumps, PyValue.serializable]
  | obj fields =>
    have h := dumpsFields_isSome_iff_serializable fields
    simp only [PyValue.dumps, PyValue.serializable]
    cases hf : dumpsFields fields <;> simp [hf] at h ⊢ <;> exact h
  | pyobj s => simp [PyValue.dumps, PyValue.serializable]

/-- `json.dumps` on a field list succeeds exactly when every value is
serializable. -/
theorem dumpsFields_isSome_iff_serializable (fs : List (String × PyValue)) :
    (dumpsFields fs).isSome = serializableFields fs := by
  match fs with
  | [] => simp [dumpsFields, serializableFields]
  | (k, v) :: rest =>
    have hv := dumps_isSome_iff_serializable v
    have hr := dumpsFields_isSome_iff_serializable rest
    simp only [dumpsFields, serializableFields]
    cases hd : v.dumps with
    | none =>
      simp [hd] at hv
      simp [hv]
    | some sv =>
      simp [hd] at hv
      cases hrf : dumpsFields rest with
      | none => simp [hd, hrf] at hr ⊢; simp [hv, hr]
      | some sr => simp [hd, hrf] at hr ⊢; simp [hv, hr]

end

/-! ### Dict lemmas -/

theorem dictGet_dictSet {α : Type} (d : List (String × α)) (k k' : String)
    (v : α) :
    dictGet (dictSet d k v) k' = if k' = k then some v else dictGet d k' := by
  induction d with
  | nil =>
    by_cases h : k' = k
    · subst h; simp [dictSet, dictGet, List.find?]
    · have e1 : (k == k') = false := by simp [Ne.symm h]
      simp [dictSet, dictGet, List.find?, e1, h]
  | cons p rest ih =>
    by_cases h1 : p.1 = k
    · simp only [dictSet, h1, beq_self_eq_true, if_true]
      by_cases h : k' = k
      · subst h; simp [dictGet, List.find?]
      · have e1 : (k == k') = false := by simp [Ne.symm h]
        have hp : p.1 ≠ k' := by rw [h1]; exact Ne.symm h
        have e2 : (p.1 == k') = false := by simp [hp]
        simp [dictGet, List.find?, e1, e2, h]
    · have e0 : (p.1 == k) = false := by simp [h1]
      simp only [dictSet, e0, Bool.false_eq_true, if_false]
      by_cases h2 : p.1 = k'
      · have hkk : k' ≠ k := by rw [← h2]; exact h1
        simp [dictGet, List.find?, h2, hkk]
      · have e2 : (p.1 == k') = false := by simp [h2]
        simp only [dictGet, List.find?, e2, cond_false]
        simpa [dictGet] using ih

theorem mem_dictKeys_dictSet {α : Type} (d : List (String × α)) (k k' : String)
    (v : α) :
    k' ∈ dictKeys (dictSet d k v) ↔ k' = k ∨ k' ∈ dictKeys d := by
  induction d with
  | nil => simp [dictSet, dictKeys]
  | cons p rest ih =>
    by_cases h1 : p.1 = k
    · simp only [dictSet, h1, beq_self_eq_true, if_true]
      simp [dictKeys, h1]
    · have e0 : (p.1 == k) = false := by simp [h1]
      simp only [dictSet, e0, Bool.false_eq_true, if_false]
      have hk : dictKeys (p :: dictSet rest k v) = p.1 :: dictKeys (dictSet rest k v) := rfl
      have hk2 : dictKeys (p :: rest) = p.1 :: dictKeys rest := rfl
      rw [hk, hk2, List.mem_cons, List.mem_cons, ih]
      tauto

theorem dictGet_dictUpdate_not_mem {α : Type} (d e : List (String × α))
    (k : String) (h : k ∉ dictKeys e) :
    dictGet (dictUpdate d e) k = dictGet d k := by
  induction e generalizing d with
  | nil => simp [dictUpdate]
  | cons p rest ih =>
    rw [show dictKeys (p :: rest) = p.1 :: dictKeys rest from rfl,
        List.mem_cons] at h
    push_neg at h
    rw [show dictUpdate d (p :: rest) = dictUpdate (dictSet d p.1 p.2) rest from rfl,
        ih _ h.2, dictGet_dictSet]
    simp [h.1]

theorem dictGet_dictUpdate_mem {α : Type} (d e : List (String × α))
    (k : String) (hnd : (dictKeys e).Nodup) (h : k ∈ dictKeys e) :
    dictGet (dictUpdate d e) k = dictGet e k := by
  induction e generalizing d with
  | nil => simp [dictKeys] at h
  | cons p rest ih =>
    rw [show dictUpdate d (p :: rest) = dictUpdate (dictSet d p.1 p.2) rest from rfl]
    rw [show dictKeys (p :: rest) = p.1 :: dictKeys rest from rfl] at h hnd
    rw [List.nodup_cons] at hnd
    rcases List.mem_cons.mp h with h | h
    · subst h
      rw [dictGet_dictUpdate_not_mem _ _ _ hnd.1, dictGet_dictSet]
      simp [dictGet, List.find?]
    · have hk : k ≠ p.1 := fun hh => hnd.1 (hh ▸ h)
      rw [ih _ hnd.2 h]
      have e2 : (p.1 == k) = false := by simp [Ne.symm hk]
      simp [dictGet, List.find?, e2]

theorem mem_dictKeys_dictUpdate {α : Type} (d e : List (String × α))
    (k : String) :
    k ∈ dictKeys (dictUpdate d e) ↔ k ∈ dictKeys d ∨ k ∈ dictKeys e := by
  induction e generalizing d with
  | nil => simp [dictUpdate, dictKeys]
  | cons p rest ih =>
    rw [show dictUpdate d (p :: rest) = dictUpdate (dictSet d p.1 p.2) rest from rfl,
        ih, mem_dictKeys_dictSet,
        show dictKeys (p :: rest) = p.1 :: dictKeys rest from rfl, List.mem_cons]
    tauto

/-! ### `RequestContext.as_dict` lemmas -/

theorem as_dict_keys_nodup (c : RequestContext) :
    (dictKeys c.as_dict).Nodup := by
  rcases c with ⟨ts, rid, uid, sv, env, ex⟩
  cases ts <;> cases ex <;>
    simp [RequestContext.as_dict, RequestContext.fieldsList, PyValue.isNull,
      dictKeys]

theorem as_dict_values_not_null (c : RequestContext) :
    c.as_dict.all (fun p => !p.2.isNull) = true := by
  rw [RequestContext.as_dict, List.all_eq_true]
  intro p hp
  exact (List.mem_filter.mp hp).2

/-! ### `ContextVar` lemmas -/

theorem foldl_cvarSet (tr : List (TaskId × RequestContext)) (s : CVarStore)
    (i : TaskId) :
    (tr.foldl (fun acc p => cvarSet acc p.1 p.2) s) i =
      match tr.reverse.find? (fun p => p.1 == i) with
      | some p => some p.2
      | none => s i := by
  induction tr generalizing s with
  | nil => simp
  | cons p rest ih =>
    rw [List.foldl_cons, ih]
    rw [show (p :: rest).reverse = rest.reverse ++ [p] from by simp]
    rw [List.find?_append]
    cases hf : rest.reverse.find? (fun q => q.1 == i) with
    | some q => simp [hf]
    | none =>
      simp only [hf, Option.none_or]
      by_cases h : p.1 = i
      · simp [cvarSet, h, List.find?]
      · have e : (p.1 == i) = false := by simp [h]
        simp [cvarSet, List.find?, e, Ne.symm h]

/-! ### Registry lemmas -/

theorem getLogger_setLoggerState (reg : Registry) (n : String)
    (st : LoggerState) :
    getLogger (setLoggerState reg n st) n = st := by
  unfold getLogger setLoggerState
  rw [dictGet_dictSet]
  simp

theorem configureLogger_preserves_handlers (reg : Registry)
    (cfg : LoggerConfig) (h : (getLogger reg cfg.name).handlers ≠ []) :
    (getLogger (configureLogger reg cfg) cfg.name).handlers =
      (getLogger reg cfg.name).handlers := by
  unfold configureLogger
  rw [getLogger_setLoggerState]
  simp [List.isEmpty_iff, h]

theorem configureLogger_handlers_ne_nil (reg : Registry) (cfg : LoggerConfig) :
    (getLogger (configureLogger reg cfg) cfg.name).handlers ≠ [] := by
  unfold configureLogger
  rw [getLogger_setLoggerState]
  by_cases h : (getLogger reg cfg.name).handlers.isEmpty
  · simp [h]
  · simp only [h, Bool.false_eq_true, if_false]
    simpa [List.isEmpty_iff] using h

/-! ### Claim theorems -/

/-- C1 (counterexample): the claim "the call-site value wins on key
collision" is false.  With an ambient context whose `user_id` is
`"ctx-user"` and a call-site `extra` of `{"user_id": "call-site"}`, the
merged `extra` built by `_get_log_args` carries the context value
`"ctx-user"`, not the call-site value — `extra.update(context.as_dict())`
lets the context overwrite the call site. -/
theorem c1_call_site_wins_counterexample :
    dictGet
      (getLogArgs [("user_id", PyValue.str "call-site")]
        (mkRequestContext "2024-01-01T00:00:00" none none (some "ctx-user")
          none none none))
      "user_id" = some (PyValue.str "ctx-user") ∧
    PyValue.str "ctx-user" ≠ PyValue.str "call-site" := by
  constructor
  · rfl
  · intro h
    injection h with h2
    exact absurd h2 (by decide)

/-- C1 (amended): on a key collision between the call-site `extra` and the
ambient context, the value delivered to the sinks is the CONTEXT value —
`_get_log_args` runs `extra.update(context.as_dict())`, so every key the
context defines ends up with the context's value. -/
theorem c1_collision_context_wins (callExtra : Dict) (ctx : RequestContext)
    (k : String) (h : k ∈ dictKeys ctx.as_dict) :
    dictGet (getLogArgs callExtra ctx) k = dictGet ctx.as_dict k :=
  dictGet_dictUpdate_mem callExtra ctx.as_dict k (as_dict_keys_nodup ctx) h

/-- Witness for C1 (amended) at a concrete collision. -/
theorem c1_collision_context_wins_witness :
    "user_id" ∈ dictKeys (mkRequestContext "2024-01-01T00:00:00" none none
      (some "ctx-user") none none none).as_dict ∧
    dictGet
      (getLogArgs [("user_id", PyValue.str "call-site")]
        (mkRequestContext "2024-01-01T00:00:00" none none (some "ctx-user")
          none none none))
      "user_id" =
      dictGet (mkRequestContext "2024-01-01T00:00:00" none none
        (some "ctx-user") none none none).as_dict "user_id" := by
  refine ⟨by decide, ?_⟩
  exact c1_collision_context_wins [("user_id", PyValue.str "call-site")]
    (mkRequestContext "2024-01-01T00:00:00" none none (some "ctx-user")
      none none none) "user_id" (by decide)

/-- C2: replaying any interleaved trace of `set_context` operations by
concurrent units of work, a `get` by unit `i` returns exactly the context
most recently set by unit `i` itself (and the process-wide default if
unit `i` never set one) — never a context set by a different unit. -/
theorem c2_context_isolation (now0 : String)
    (tr : List (TaskId × RequestContext)) (i : TaskId) :
    cvarGet (runSets tr) (some (defaultRequestContext now0)) i =
      some (((tr.reverse.find? (fun p => p.1 == i)).map Prod.snd).getD
        (defaultRequestContext now0)) := by
  have h := foldl_cvarSet tr emptyStore i
  unfold runSets at *
  unfold cvarGet
  rw [h]
  cases hf : tr.reverse.find? (fun p => p.1 == i) with
  | some q => simp
  | none => simp [emptyStore]

/-- C3 (counterexample): the claim "the structured formatter's format
operation returns a string and never raises" is false.  On a record whose
merged `extra` holds a non-JSON-serializable value, `json.dumps` raises
`TypeError` (there is no `default=str` coercion), modelled here as
`format` returning `none`. -/
theorem c3_format_never_raises_counterexample :
    JsonFormatter.format "2024-01-01T00:00:00"
      { levelname := "INFO", name := "app", message := "boom"
        extra := some [("payload", PyValue.pyobj "<object object at 0x7f>")]
        exc_text := none } = none := rfl

/-- C3 (amended): `format` returns a string exactly when every value of
the document it builds is JSON-serializable; a non-serializable value
makes `json.dumps` raise, and the error propagates out of `format`
uncoerced. -/
theorem c3_format_returns_string_when_serializable (now : String)
    (r : PyLogRecord)
    (h : PyValue.serializable (.obj (JsonFormatter.logData now r)) = true) :
    (JsonFormatter.format now r).isSome = true := by
  unfold JsonFormatter.format
  rw [dumps_isSome_iff_serializable, h]

/-- Witness for C3 (amended) on a concrete serializable record. -/
theorem c3_format_returns_string_when_serializable_witness :
    PyValue.serializable (.obj (JsonFormatter.logData "2024-01-01T00:00:00"
      { levelname := "INFO", name := "app", message := "ok"
        extra := some [("path", PyValue.str "/ping")]
        exc_text := none })) = true ∧
    (JsonFormatter.format "2024-01-01T00:00:00"
      { levelname := "INFO", name := "app", message := "ok"
        extra := some [("path", PyValue.str "/ping")]
        exc_text := none }).isSome = true := by
  have h : PyValue.serializable (.obj (JsonFormatter.logData "2024-01-01T00:00:00"
      { levelname := "INFO", name := "app", message := "ok"
        extra := some [("path", PyValue.str "/ping")]
        exc_text := none })) = true := rfl
  exact ⟨h, c3_format_returns_string_when_serializable _ _ h⟩

/-- C4: for the logger configured by `_configure_logger`, a record is
delivered to a sink iff its level meets the sink's minimum severity; in
particular a DEBUG record reaches exactly the console sink — not the
rotating file sink nor the rotating JSON sink (both at minimum INFO). -/
theorem c4_severity_filtering (cfg : LoggerConfig) :
    (∀ lvl : Nat, ∀ h : Handler,
        h ∈ deliveredSinks (getLogger (configureLogger [] cfg) cfg.name) lvl ↔
          (h ∈ (getLogger (configureLogger [] cfg) cfg.name).handlers ∧
            h.level ≤ lvl)) ∧
    (deliveredSinks (getLogger (configureLogger [] cfg) cfg.name) DEBUG).map
        Handler.kind = [SinkKind.console] := by
  have hst : getLogger (configureLogger [] cfg) cfg.name =
      { level := DEBUG
        handlers := [fileHandler cfg.log_dir, jsonHandler cfg.log_dir,
          consoleHandler] } := by
    unfold configureLogger
    rw [getLogger_setLoggerState]
    simp [getLogger, dictGet]
  rw [hst]
  constructor
  · intro lvl h
    by_cases hl : DEBUG ≤ lvl
    · simp [deliveredSinks, hl, List.mem_filter]
    · simp only [deliveredSinks, hl, if_false]
      simp only [List.mem_nil_iff, false_iff]
      intro hc
      rcases hc with ⟨hmem, hle⟩
      simp only [List.mem_cons, List.not_mem_nil, or_false] at hmem
      simp only [DEBUG] at hl
      rcases hmem with h1 | h1 | h1 <;> subst h1 <;>
        simp [fileHandler, jsonHandler, consoleHandler, INFO, DEBUG] at hle <;>
        omega
  · simp [deliveredSinks, DEBUG, INFO, fileHandler, jsonHandler, consoleHandler]

/-- C5: remote-store delivery is best-effort.  Whatever the outcome of
`es_client.index` (success, connection error, auth error, serialization
error), `ElasticsearchHandler.emit` never raises; on failure it writes
the error to the process error stream and drops the record; and an
`info()`-level facade call still fans the record out to the file, JSON
and console sinks, each of which receives it. -/
theorem c5_remote_failure_is_contained (cfg : LoggerConfig) (es : ESOutcome) :
    ((logCall (setupElasticsearch (getLogger (configureLogger [] cfg) cfg.name))
        INFO es).map Prod.fst =
      [SinkKind.file, SinkKind.json, SinkKind.console, SinkKind.elastic]) ∧
    ((logCall (setupElasticsearch (getLogger (configureLogger [] cfg) cfg.name))
        INFO es).all (fun r => r.2.raised.isNone) = true) ∧
    ((logCall (setupElasticsearch (getLogger (configureLogger [] cfg) cfg.name))
        INFO es).all (fun r => r.1 == SinkKind.elastic || r.2.delivered) = true) ∧
    (elasticEmit es).raised = none ∧
    (elasticEmit es).delivered = (es.errMsg).isNone ∧
    (elasticEmit es).stderrLines =
      (match es.errMsg with
       | some m => ["Error sending log to Elasticsearch: " ++ m ++ "\n"]
       | none => []) := by
  have hst : getLogger (configureLogger [] cfg) cfg.name =
      { level := DEBUG
        handlers := [fileHandler cfg.log_dir, jsonHandler cfg.log_dir,
          consoleHandler] } := by
    unfold configureLogger
    rw [getLogger_setLoggerState]
    simp [getLogger, dictGet]
  rw [hst]
  cases es <;>
    simp [logCall, setupElasticsearch, deliveredSinks, elasticHandler,
      fileHandler, jsonHandler, consoleHandler, handlerEmit, elasticEmit,
      ESOutcome.errMsg, DEBUG, INFO]

/-- C6: the middleware produces exactly one terminal log event per
request — INFO "Request completed" when `call_next` returns, ERROR
"Request failed" with `exc_info` when it raises — and on failure the
original exception is re-raised unchanged. -/
theorem c6_exactly_one_terminal_event (ε : Type) (cfg : LoggerConfig)
    (now : String) (t : TaskId) (requestId method path : String)
    (callNext : Except ε Response) (s : CVarStore) :
    ((loggingMiddleware ε cfg now t requestId method path callNext s).1.filter
        LogEvent.isTerminal).length = 1 ∧
    (match callNext with
     | .ok resp =>
        (loggingMiddleware ε cfg now t requestId method path callNext s).1.filter
            LogEvent.isTerminal =
          [{ level := INFO, tag := .completed, exc_info := false }] ∧
        (loggingMiddleware ε cfg now t requestId method path callNext s).2.1 =
          .ok resp
     | .error e =>
        (loggingMiddleware ε cfg now t requestId method path callNext s).1.filter
            LogEvent.isTerminal =
          [{ level := ERROR, tag := .failed, exc_info := true }] ∧
        (loggingMiddleware ε cfg now t requestId method path callNext s).2.1 =
          .error e) := by
  cases callNext <;>
    simp [loggingMiddleware, LogEvent.isTerminal, List.filter]

/-- C7: a context is always present for any log call: the context
variable was declared with a process-wide default `RequestContext()`, so
a `get` after any trace of `set` operations never observes an absent
context; and every constructed `RequestContext` carries a timestamp
(defaulted to construction time when not supplied). -/
theorem c7_context_always_present (now0 : String)
    (tr : List (TaskId × RequestContext)) (t : TaskId) :
    (cvarGet (runSets tr) (some (defaultRequestContext now0)) t).isSome =
      true ∧
    ∀ (now : String) (ts request_id user_id service environment : Option String)
      (extra : Option Dict),
      (mkRequestContext now ts request_id user_id service environment
        extra).timestamp.isSome = true := by
  constructor
  · unfold cvarGet
    cases hh : runSets tr t <;> simp [hh]
  · intro now ts request_id user_id service environment extra
    cases ts <;> simp [mkRequestContext]

/-- C8: `set_context` replaces the ambient context of the calling unit of
work (and only of that unit) with a freshly built `RequestContext` whose
`service` and `environment` come from the facility configuration, whose
supplied fields are taken from the call, and whose unsupplied fields take
the `RequestContext` defaults. -/
theorem c8_set_context_builds_fresh_context (cfg : LoggerConfig)
    (now : String) (kw : ContextKwargs) (s : CVarStore) (t t2 : TaskId) :
    (set_context cfg now kw s t) t2 =
      (if t2 = t then some (buildContext cfg now kw) else s t2) ∧
    (buildContext cfg now kw).service = cfg.service_name ∧
    (buildContext cfg now kw).environment = cfg.environment ∧
    (buildContext cfg now kw).timestamp = some (kw.timestamp.getD now) ∧
    (buildContext cfg now kw).request_id = kw.request_id.getD "-" ∧
    (buildContext cfg now kw).user_id = kw.user_id.getD "-" ∧
    (buildContext cfg now kw).extra = kw.extra := by
  refine ⟨rfl, ?_, ?_, ?_, ?_, ?_, ?_⟩ <;>
    cases hts : kw.timestamp <;>
    simp [buildContext, mkRequestContext, hts]

/-- C10: handler installation is idempotent.  If the named logger already
has handlers, `_configure_logger` adds none; hence constructing a second
`FastAPILogger` over the same logger name (even with a different
configuration) leaves the installed sinks exactly as the first
construction did — no duplicated delivery. -/
theorem c10_configure_logger_idempotent (reg : Registry)
    (cfg cfg2 : LoggerConfig) (h1 : (getLogger reg cfg.name).handlers ≠ [])
    (h2 : cfg2.name = cfg.name) :
    (getLogger (configureLogger reg cfg) cfg.name).handlers =
      (getLogger reg cfg.name).handlers ∧
    (getLogger (configureLogger (configureLogger reg cfg) cfg2)
        cfg.name).handlers =
      (getLogger (configureLogger reg cfg) cfg.name).handlers := by
  refine ⟨configureLogger_preserves_handlers reg cfg h1, ?_⟩
  rw [← h2]
  exact configureLogger_preserves_handlers (configureLogger reg cfg) cfg2
    (h2 ▸ configureLogger_handlers_ne_nil reg cfg)

/-- Witness for C10 on a concrete registry whose logger already has a
console handler installed, and a second configuration sharing the name. -/
theorem c10_configure_logger_idempotent_witness :
    (getLogger [("app", { level := 10, handlers := [consoleHandler] })]
        "app").handlers ≠ [] ∧
    ("app" : String) = "app" ∧
    ((getLogger (configureLogger
        [("app", { level := 10, handlers := [consoleHandler] })]
        { name := "app", log_dir := "var/logs", service_name := "svc"
          environment := "development" }) "app").handlers =
      (getLogger [("app", { level := 10, handlers := [consoleHandler] })]
        "app").handlers) := by
  have h1 : (getLogger [("app",
      ({ level := 10, handlers := [consoleHandler] } : LoggerState))]
      "app").handlers ≠ [] := by decide
  refine ⟨h1, rfl, ?_⟩
  exact (c10_configure_logger_idempotent
    [("app", { level := 10, handlers := [consoleHandler] })]
    { name := "app", log_dir := "var/logs", service_name := "svc"
      environment := "development" }
    { name := "app", log_dir := "elsewhere", service_name := "svc2"
      environment := "production" } h1 rfl).1

/-! ### Lemmas on the merged mapping's `'extra'` entry -/

theorem mem_extra_as_dict (ctx : RequestContext) (ce : Dict)
    (h : ctx.extra = some ce) :
    "extra" ∈ dictKeys ctx.as_dict := by
  rcases ctx with ⟨ts, rid, uid, sv, env, ex⟩
  simp only at h
  subst h
  cases ts <;>
    simp [RequestContext.as_dict, RequestContext.fieldsList, PyValue.isNull,
      dictKeys]

theorem as_dict_extra_of_some (ctx : RequestContext) (ce : Dict)
    (h : ctx.extra = some ce) :
    dictGet ctx.as_dict "extra" = some (PyValue.obj ce) := by
  rcases ctx with ⟨ts, rid, uid, sv, env, ex⟩
  simp only at h
  subst h
  cases ts <;>
    simp [RequestContext.as_dict, RequestContext.fieldsList, PyValue.isNull,
      dictGet, List.find?]

theorem merged_extra_entry (callExtra : Dict) (ctx : RequestContext)
    (ce : Dict) (h : ctx.extra = some ce) :
    dictGet (getLogArgs callExtra ctx) "extra" = some (PyValue.obj ce) := by
  unfold getLogArgs
  rw [dictGet_dictUpdate_mem _ _ _ (as_dict_keys_nodup ctx)
    (mem_extra_as_dict ctx ce h)]
  exact as_dict_extra_of_some ctx ce h

/-- C9 (counterexample): the claim "the structured document contains all
keys of the merged extra mapping present at call time" is false.  For a
facade call whose merged mapping contains `request_id` (from the ambient
context) and the call-site key `k`, `Logger.makeRecord` spreads the
merged mapping into individual record attributes, `record.extra` is only
the nested context extra dict, and the JSON document contains neither
`request_id` nor `k`. -/
theorem c9_merged_keys_counterexample :
    "request_id" ∈ dictKeys (getLogArgs [("k", PyValue.str "v")]
      (mkRequestContext "2024-01-01T00:00:00" none (some "r1") none none none
        (some [("path", PyValue.str "/ping")]))) ∧
    "k" ∈ dictKeys (getLogArgs [("k", PyValue.str "v")]
      (mkRequestContext "2024-01-01T00:00:00" none (some "r1") none none none
        (some [("path", PyValue.str "/ping")]))) ∧
    "request_id" ∉ dictKeys (JsonFormatter.logData "2024-01-01T00:00:01"
      (facadeRecord "INFO" "app" "msg" [("k", PyValue.str "v")]
        (mkRequestContext "2024-01-01T00:00:00" none (some "r1") none none none
          (some [("path", PyValue.str "/ping")])) none)) ∧
    "k" ∉ dictKeys (JsonFormatter.logData "2024-01-01T00:00:01"
      (facadeRecord "INFO" "app" "msg" [("k", PyValue.str "v")]
        (mkRequestContext "2024-01-01T00:00:00" none (some "r1") none none none
          (some [("path", PyValue.str "/ping")])) none)) := by
  decide

/-- C9 (amended): for a facade call whose ambient context carries a
(non-`None`) nested extra dict, the key set of the document built by the
structured formatter is exactly the reserved keys (`timestamp`, `level`,
`message`, `logger`, plus `exception` when an exception was captured)
together with the keys of that nested context extra dict —
`Logger.makeRecord` spreads the merged mapping into record attributes, so
`record.extra` is the merged mapping's own `'extra'` entry and the
context's scalar fields and call-site keys never reach the document; the
context's dictionary form still contributes no `null` placeholders, since
`as_dict` drops `None`-valued fields. -/
theorem c9_document_key_set_amended (now levelname name message : String)
    (callExtra : Dict) (ctx : RequestContext) (ce : Dict)
    (exc : Option String) (k : String) (h : ctx.extra = some ce) :
    (k ∈ dictKeys (JsonFormatter.logData now
        (facadeRecord levelname name message callExtra ctx exc)) ↔
      (k = "timestamp" ∨ k = "level" ∨ k = "message" ∨ k = "logger" ∨
       k ∈ dictKeys ce ∨ (exc.isSome = true ∧ k = "exception"))) ∧
    ctx.as_dict.all (fun p => !p.2.isNull) = true := by
  refine ⟨?_, as_dict_values_not_null ctx⟩
  have hx : (facadeRecord levelname name message callExtra ctx exc).extra =
      some ce := by
    unfold facadeRecord recordExtraDict
    rw [merged_extra_entry callExtra ctx ce h]
  have he : (facadeRecord levelname name message callExtra ctx exc).exc_text =
      exc := rfl
  unfold JsonFormatter.logData
  rw [hx, he]
  cases hex : exc with
  | none =>
    rw [mem_dictKeys_dictUpdate]
    simp [dictKeys]
    tauto
  | some e2 =>
    rw [mem_dictKeys_dictSet, mem_dictKeys_dictUpdate]
    simp [dictKeys]
    tauto

/-- Witness for C9 (amended) at a concrete facade call whose context
carries the nested extra dict `{"path": "/p"}`. -/
theorem c9_document_key_set_amended_witness :
    (mkRequestContext "2024-01-01T00:00:00" none (some "r1") none none none
      (some [("path", PyValue.str "/p")])).extra =
        some [("path", PyValue.str "/p")] ∧
    (("path" ∈ dictKeys (JsonFormatter.logData "2024-01-01T00:00:01"
        (facadeRecord "INFO" "app" "m" [("k", PyValue.str "v")]
          (mkRequestContext "2024-01-01T00:00:00" none (some "r1") none none
            none (some [("path", PyValue.str "/p")])) none)) ↔
      ("path" = "timestamp" ∨ "path" = "level" ∨ "path" = "message" ∨
       "path" = "logger" ∨
       "path" ∈ dictKeys [("path", PyValue.str "/p")] ∨
       ((none : Option String).isSome = true ∧ "path" = "exception"))) ∧
    (mkRequestContext "2024-01-01T00:00:00" none (some "r1") none none none
      (some [("path", PyValue.str "/p")])).as_dict.all
        (fun p => !p.2.isNull) = true) := by
  refine ⟨rfl, ?_⟩
  exact c9_document_key_set_amended "2024-01-01T00:00:01" "INFO" "app" "m"
    [("k", PyValue.str "v")]
    (mkRequestContext "2024-01-01T00:00:00" none (some "r1") none none none
      (some [("path", PyValue.str "/p")]))
    [("path", PyValue.str "/p")] none "path" rfl
